import Mathlib

set_option maxRecDepth 4000

/-!
Verification of the modaics garment-intelligence pipeline against its
natural-language specification.

Shallow embedding of the Python services in `backend/app`:
* `services/condition_grader.py` — routing recommendation decision table
* `services/fashion_clip.py` — similarity / label cleaning / prompt banks
* `services/style_matching.py` — clamped cosine similarity
* `services/pricing.py` — multi-factor price estimation
* `services/color_extractor.py` — palette extraction post-clustering logic
* `routers/analysis.py` — batch aggregation and sustainability scoring
* `routers/discovery.py` — ranking, thresholding and pagination

Python `float`/`Decimal` values are modelled as `ℚ` (and `ℝ` where the
source computes square roots); Python `int` as `ℤ`/`ℕ`; `None` as
`Option`.  A Python expression that raises (e.g. comparing `None` with an
`int`) is modelled with `Except`.
-/

/-! ## Generic helpers: Python rounding, strings, lists -/

/-- Round to an integer with ties going to the even neighbour, as Python's
built-in `round` and `decimal` `ROUND_HALF_EVEN` do. -/
def roundHalfEvenInt (q : ℚ) : ℤ :=
  let n := ⌊q⌋
  let f := q - n
  if f < 1/2 then n
  else if 1/2 < f then n + 1
  else if Even n then n else n + 1

/-- Python `round(q, 3)`: round to 3 decimal places, ties to even. -/
def pyRound3 (q : ℚ) : ℚ := (roundHalfEvenInt (q * 1000) : ℚ) / 1000

/-- `Decimal.quantize(Decimal("1.00"), rounding=ROUND_HALF_UP)`: round to
2 decimal places with ties going away from zero. -/
def quantizeHalfUp2 (q : ℚ) : ℚ :=
  if q < 0 then -((⌊-q * 100 + 1/2⌋ : ℚ) / 100) else (⌊q * 100 + 1/2⌋ : ℚ) / 100

/-- `Decimal.quantize(Decimal("1.00"))` with the default context rounding
(`ROUND_HALF_EVEN`): round to 2 decimal places, ties to even. -/
def quantizeHalfEven2 (q : ℚ) : ℚ := (roundHalfEvenInt (q * 100) : ℚ) / 100

/-- Dot product of two vectors, as `np.dot` on equal-length 1-D arrays. -/
def dot : List ℚ → List ℚ → ℚ
  | a :: as', b :: bs' => a * b + dot as' bs'
  | _, _ => 0

/-- Sum of squares of a vector; `np.linalg.norm l` is its square root. -/
def sumSq (l : List ℚ) : ℚ := dot l l

/-- Character-list version of Python `str.startswith`. -/
def charsStartWith : List Char → List Char → Bool
  | _, [] => true
  | [], _ :: _ => false
  | c :: cs, p :: ps => c = p && charsStartWith cs ps

/-- Character-list version of Python's substring test `pat in s`. -/
def containsSub (pat : List Char) : List Char → Bool
  | [] => charsStartWith [] pat
  | c :: cs => charsStartWith (c :: cs) pat || containsSub pat cs

/-- Python `pat in s` on strings. -/
def strContains (s pat : String) : Bool := containsSub pat.data s.data

/-- Replace all left-to-right non-overlapping occurrences of `pat` (assumed
non-empty at call sites) by `repl`, as Python `str.replace`; the fuel
argument (instantiated with the list length, which bounds the number of
steps) keeps the recursion structural. -/
def replaceCharsAux (pat repl : List Char) : ℕ → List Char → List Char
  | 0, s => s
  | _, [] => []
  | fuel + 1, c :: cs =>
    if pat ≠ [] ∧ charsStartWith (c :: cs) pat then
      repl ++ replaceCharsAux pat repl fuel (cs.drop (pat.length - 1))
    else
      c :: replaceCharsAux pat repl fuel cs

/-- Python `str.replace` on character lists. -/
def replaceChars (pat repl s : List Char) : List Char := replaceCharsAux pat repl s.length s

/-- Python `s.replace(pat, repl)`. -/
def pyReplace (s pat repl : String) : String :=
  String.mk (replaceChars pat.data repl.data s.data)

/-- Python `s.lower()` (ASCII data in this code base). -/
def pyLower (s : String) : String := String.mk (s.data.map Char.toLower)

/-- Python `s.strip()`. -/
def pyStrip (s : String) : String :=
  String.mk (((s.data.dropWhile Char.isWhitespace).reverse.dropWhile
    Char.isWhitespace).reverse)

/-- Helper for `pyWords`: split on whitespace runs, discarding empties. -/
def wordsAux : List Char → List Char → List String
  | acc, [] => if acc.isEmpty then [] else [String.mk acc.reverse]
  | acc, c :: cs =>
    if c.isWhitespace then
      if acc.isEmpty then wordsAux [] cs else String.mk acc.reverse :: wordsAux [] cs
    else wordsAux (c :: acc) cs

/-- Python `s.split()` with no argument: whitespace runs, no empty parts. -/
def pyWords (s : String) : List String := wordsAux [] s.data

/-- Size of `set(xs) & set(ys)`: the number of distinct shared elements. -/
def distinctOverlap (xs ys : List String) : ℕ :=
  (xs.dedup.filter (fun w => w ∈ ys)).length

/-! ## Condition grader: `services/condition_grader.py`

`get_routing_recommendation(grade, brand_tier=None, estimated_price=None)`.
The decision table returns on first match; the `grade == "D" and
brand_tier <= 2` test evaluates `brand_tier <= 2` whenever `grade == "D"`,
which raises `TypeError` in Python when `brand_tier is None`; that branch
is modelled with `Except.error`.  (The `grade_info` lookup at the top of
the Python function is dead code in this method and is not modelled.) -/

structure RoutingRec where
  action : String
  reason : String
  message : Option String
  confidence : String
deriving DecidableEq

/-- Message of the `low_value` branch; `f"...{estimated_price:.0f}..."`
formats the price with zero decimals (ties to even). -/
def lowValueMessage (p : ℚ) : String :=
  "Similar items typically sell for $" ++ toString (roundHalfEvenInt p) ++
  " AUD. You could list it or donate — either way it stays out of landfill!"

/-- Branches of the decision table after the grade-D rule (price rule,
A/B rule, default); `if estimated_price and estimated_price < 15`
skips the price rule when the price is `None` or `0.0` (falsy). -/
def routingTail (grade : String) (estimated_price : Option ℚ) : RoutingRec :=
  let afterPrice : RoutingRec :=
    if grade = "A" ∨ grade = "B" then
      ⟨"sell", "good_condition", none, "high"⟩
    else
      ⟨"sell_discount", "moderate_condition",
        some "This piece shows some wear — consider pricing it competitively for a quick sale.",
        "medium"⟩
  match estimated_price with
  | some p => if p ≠ 0 ∧ p < 15 then
      ⟨"choice", "low_value", some (lowValueMessage p), "medium"⟩
    else afterPrice
  | none => afterPrice

/-- `ConditionGrader.get_routing_recommendation`. -/
def get_routing_recommendation (grade : String) (brand_tier : Option ℤ)
    (estimated_price : Option ℚ) : Except String RoutingRec :=
  if brand_tier = some 5 then
    .ok ⟨"sell", "premium_brand", none, "high"⟩
  else if brand_tier = some 1 then
    .ok ⟨"donate", "ultra_fast_fashion",
      some "Items from this brand typically sell for less than shipping costs. Want to give it a second life through donation instead?",
      "high"⟩
  else if grade = "F" then
    .ok ⟨"recycle", "damaged",
      some "This piece might be past its wearing days — we can help you find textile recycling nearby.",
      "high"⟩
  else if grade = "D" then
    match brand_tier with
    | none => .error "TypeError: unsupported operand types for <=: NoneType and int"
    | some t =>
      if t ≤ 2 then
        .ok ⟨"donate", "worn_fast_fashion",
          some "This piece could make someone's day! Based on similar items, donating would create more impact than selling.",
          "medium"⟩
      else .ok (routingTail grade estimated_price)
  else .ok (routingTail grade estimated_price)

/-! ## FashionCLIP service: `services/fashion_clip.py` -/

namespace FashionCLIP

/-- The 27 category prompts (`FashionCLIPService.CATEGORY_PROMPTS`). -/
def CATEGORY_PROMPTS : List String := [
  "a photo of a t-shirt", "a photo of a dress", "a photo of a jacket", "a photo of jeans",
  "a photo of a skirt", "a photo of a sweater", "a photo of a coat", "a photo of a blouse",
  "a photo of shorts", "a photo of a hoodie", "a photo of trousers", "a photo of a suit",
  "a photo of a cardigan", "a photo of sneakers", "a photo of boots", "a photo of high heels",
  "a photo of a handbag", "a photo of a scarf", "a photo of a hat", "a photo of a belt",
  "a photo of a swimsuit", "a photo of a jumpsuit", "a photo of a vest", "a photo of sandals",
  "a photo of an athletic top", "a photo of athletic leggings", "a photo of a denim jacket"]

/-- `FashionCLIPService._clean_label`: strip the prefixes
`"a pair of "`, `"a "`, `"an "` in order (each tested against the current
string), then delete every occurrence of `" clothing"`, `" fabric"`,
`" material"`, `" style"`. -/
def clean_label (prompt : String) : String :=
  let stripped := ["a pair of ", "a ", "an "].foldl
    (fun cur pre =>
      if charsStartWith cur.data pre.data then String.mk (cur.data.drop pre.data.length)
      else cur)
    prompt
  pyReplace (pyReplace (pyReplace (pyReplace stripped " clothing" "") " fabric" "")
    " material" "") " style" ""

/-- `FashionCLIPService.calculate_similarity`: the raw dot product
`float(np.dot(e1, e2))`, with no clamping. -/
def calculate_similarity (embedding1 embedding2 : List ℚ) : ℚ :=
  dot embedding1 embedding2

end FashionCLIP

/-! ## Style matching service: `services/style_matching.py` -/

namespace StyleMatching

/-- `StyleMatchingService.calculate_similarity`: cosine similarity
`np.dot(v1, v2) / (np.linalg.norm(v1) * np.linalg.norm(v2))`, then
`max(0.0, min(1.0, similarity))`. -/
noncomputable def calculate_similarity (embedding1 embedding2 : List ℚ) : ℝ :=
  let similarity : ℝ :=
    (dot embedding1 embedding2 : ℚ) /
      (Real.sqrt ((sumSq embedding1 : ℚ) : ℝ) * Real.sqrt ((sumSq embedding2 : ℚ) : ℝ))
  max 0 (min 1 similarity)

end StyleMatching

/-! ## Pricing engine: `services/pricing.py` -/

namespace Pricing

/-- `PricingService.CONDITION_MULTIPLIERS`. -/
def CONDITION_MULTIPLIERS : List (String × ℚ) :=
  [("new", 0.85), ("excellent", 0.70), ("good", 0.50), ("fair", 0.30)]

/-- `PricingService.BRAND_TIERS`. -/
def BRAND_TIERS : List (String × ℚ) :=
  [("gucci", 2.5), ("prada", 2.5), ("chanel", 3.0), ("hermes", 3.5),
   ("louis vuitton", 2.5),
   ("theory", 1.5), ("cos", 1.3), ("everlane", 1.2), ("reformation", 1.4),
   ("patagonia", 1.4), ("eileen fisher", 1.4),
   ("j.crew", 1.1), ("banana republic", 1.0), ("zara", 0.8), ("h&m", 0.6),
   ("uniqlo", 0.9), ("madewell", 1.2),
   ("organic basics", 1.3), ("tentree", 1.3), ("kotn", 1.3), ("pact", 1.2),
   ("kuyichi", 1.2)]

/-- `PricingService.CATEGORY_BASE_PRICES`. -/
def CATEGORY_BASE_PRICES : List (String × ℚ) :=
  [("dress", 120.00), ("shirt", 60.00), ("blouse", 70.00), ("t-shirt", 35.00),
   ("pants", 80.00), ("jeans", 90.00), ("skirt", 65.00), ("jacket", 150.00),
   ("coat", 200.00), ("sweater", 85.00), ("cardigan", 75.00), ("shorts", 45.00),
   ("activewear", 70.00), ("swimwear", 60.00), ("accessory", 50.00),
   ("shoes", 100.00), ("bag", 150.00)]

/-- Provenance data read with `.get(key, default)` in the source; an absent
dict is `none` (an empty dict is also falsy in Python, but yields bonus 0
through either path). -/
structure Provenance where
  source : String := ""
  materials : List String := []
  certifications : List String := []
deriving DecidableEq

/-- The sustainable-materials list of `_calculate_sustainability_bonus`. -/
def sustainable_materials : List String :=
  ["organic cotton", "hemp", "linen", "tencel", "lyocell",
   "recycled polyester", "recycled nylon", "bamboo",
   "peace silk", "alpaca", "merino wool"]

/-- The ordered certification bonus map of `_calculate_sustainability_bonus`. -/
def cert_bonus_map : List (String × ℚ) :=
  [("gots", 10.00), ("fair trade", 10.00), ("b corp", 8.00), ("bluesign", 8.00),
   ("oeko-tex", 5.00), ("cradle to cradle", 10.00)]

/-- `PricingService._calculate_sustainability_bonus`: source bucket,
one-shot materials bonus, per-certification first-match bonus, capped at 50. -/
def sustainability_bonus (provenance : Option Provenance) : ℚ :=
  match provenance with
  | none => 0
  | some prov =>
    let b1 : ℚ :=
      if pyLower prov.source ∈ ["vintage", "antique", "designer archive"] then 15.00
      else if pyLower prov.source ∈ ["secondhand", "consignment"] then 5.00
      else 0
    let b2 : ℚ :=
      if prov.materials.any
          (fun m => sustainable_materials.any (fun sus => strContains (pyLower m) sus)) then
        5.00
      else 0
    let b3 : ℚ := (prov.certifications.map (fun cert =>
      match cert_bonus_map.find? (fun p => strContains (pyLower cert) p.1) with
      | some p => p.2
      | none => 0)).sum
    min (b1 + b2 + b3) 50.00

/-- The pre-floor recommended price: `(base * cond_mult * brand_mult *
rarity_mult + bonus).quantize(Decimal("1.00"), rounding=ROUND_HALF_UP)`.
`if original_price:` treats `None` and `0` as falsy; `if brand:` treats an
empty string as falsy. -/
def adjusted_price (category condition : String) (brand : Option String)
    (provenance : Option Provenance) (original_price : Option ℚ) : ℚ :=
  let base : ℚ :=
    match original_price with
    | some p => if p ≠ 0 then p else (CATEGORY_BASE_PRICES.lookup (pyLower category)).getD 75.00
    | none => (CATEGORY_BASE_PRICES.lookup (pyLower category)).getD 75.00
  let condition_mult := (CONDITION_MULTIPLIERS.lookup (pyLower condition)).getD 0.40
  let brand_mult : ℚ :=
    match brand with
    | some b => if b ≠ "" then (BRAND_TIERS.lookup (pyStrip (pyLower b))).getD 1.0 else 1.0
    | none => 1.0
  let rarity_mult : ℚ := 1.0
  quantizeHalfUp2 (base * condition_mult * brand_mult * rarity_mult +
    sustainability_bonus provenance)

/-- `PricingService._calculate_confidence` (no `.strip()` on the brand here,
faithful to the source). -/
def calculate_confidence (category : String) (brand : Option String)
    (original_price : Option ℚ) : String :=
  let s1 : ℕ := if (CATEGORY_BASE_PRICES.lookup (pyLower category)).isSome then 1 else 0
  let s2 : ℕ :=
    match brand with
    | some b => if b ≠ "" ∧ (BRAND_TIERS.lookup (pyLower b)).isSome then 2 else 0
    | none => 0
  let s3 : ℕ := match original_price with | some p => if p ≠ 0 then 2 else 0 | none => 0
  if 4 ≤ s1 + s2 + s3 then "high" else if 2 ≤ s1 + s2 + s3 then "medium" else "low"

/-- The fields of the `estimate_price` result that carry numeric content
(the `factors` sub-dict echoes inputs and the `explanation` field is a
presentation string; neither is constrained by the claims). -/
structure PriceEstimate where
  recommended_price : ℚ
  range_min : ℚ
  range_max : ℚ
  confidence : String

/-- `PricingService.estimate_price`: floor the rounded price at 5.00, then
`min = (final * 0.8).quantize("1.00")` and `max = (final * 1.2).quantize("1.00")`
with the default `ROUND_HALF_EVEN` context rounding. -/
def estimate_price (category condition : String) (brand : Option String)
    (provenance : Option Provenance) (original_price : Option ℚ) : PriceEstimate :=
  let final_price := max (adjusted_price category condition brand provenance original_price) 5.00
  { recommended_price := final_price
    range_min := quantizeHalfEven2 (final_price * 0.8)
    range_max := quantizeHalfEven2 (final_price * 1.2)
    confidence := calculate_confidence category brand original_price }

end Pricing

/-! ## Analysis router helpers: `routers/analysis.py` -/

namespace Analysis

/-- The sustainable-materials list of `calculate_sustainability_score`. -/
def sustainable_materials : List String :=
  ["organic cotton", "hemp", "linen", "tencel",
   "recycled polyester", "bamboo", "wool", "silk", "cashmere"]

/-- The condition-points dict `.get(condition, 0)` of
`calculate_sustainability_score`. -/
def conditionPointsOf (condition : String) : ℤ :=
  if condition = "A" then 15
  else if condition = "B" then 10
  else if condition = "C" then 5
  else if condition = "D" then 3
  else if condition = "F" then 0
  else 0

/-- `calculate_sustainability_score(materials, condition)`: start at 50, add
10 per material prediction whose `label` contains a sustainable material,
cap at 80, add the condition bonus, cap at 100.  A material prediction dict
is modelled by its `label` string (`material.get("label", "")`). -/
def calculate_sustainability_score (materials : List String) (condition : String) : ℤ :=
  let afterMaterials : ℤ :=
    min (50 + 10 * ((materials.filter
      (fun m => sustainable_materials.any (fun sm => strContains (pyLower m) sm))).length : ℤ)) 80
  min (afterMaterials + conditionPointsOf condition) 100

/-- Accumulate one `{label, confidence}` vote into the insertion-ordered
association list that models the `defaultdict(float)` `category_votes`. -/
def addVote : List (String × ℚ) → String × ℚ → List (String × ℚ)
  | [], p => [p]
  | q :: qs, p => if q.1 = p.1 then (q.1, q.2 + p.2) :: qs else q :: addVote qs p

/-- The accumulated `category_votes` of `aggregate_predictions`: each
per-image result contributes its category predictions
(`result.get("category", [])`, each a `(label, confidence)` pair). -/
def collectVotes (results : List (List (String × ℚ))) : List (String × ℚ) :=
  results.foldl (fun acc preds => preds.foldl addVote acc) []

/-- `aggregate_predictions`: when the total vote is positive, sort the votes
by summed confidence descending (Python's stable sort, modelled by the
stable `insertionSort`), keep the top 3, and
renormalise each to `round(conf / total, 3)`; otherwise return the empty
list. -/
def aggregate_predictions (results : List (List (String × ℚ))) : List (String × ℚ) :=
  let votes := collectVotes results
  let total := (votes.map Prod.snd).sum
  if 0 < total then
    ((votes.insertionSort (fun a b => b.2 ≤ a.2)).take 3).map
      (fun p => (p.1, pyRound3 (p.2 / total)))
  else []

end Analysis

/-! ## Discovery ranker: `routers/discovery.py` -/

namespace Discovery

/-- Round a real to an integer with ties to even, as Python's `round`. -/
noncomputable def roundHalfEvenIntR (x : ℝ) : ℤ :=
  let n := ⌊x⌋
  let f := x - n
  if f < 1/2 then n
  else if 1/2 < f then n + 1
  else if Even n then n else n + 1

/-- Python `round(x, 3)` on the real-valued similarity scores. -/
noncomputable def roundReal3 (x : ℝ) : ℝ := (roundHalfEvenIntR (x * 1000) : ℝ) / 1000

/-- The `story` JSONB dict fields read by `Garment.get_story_text`
(`.get` of a missing key and an empty string are both falsy). -/
structure Story where
  text : String := ""
  mood : String := ""
  occasion : String := ""
deriving DecidableEq

/-- The `style_attributes` JSONB dict fields read by the discovery helpers. -/
structure StyleAttrs where
  colors : List String := []
  style_tags : List String := []
deriving DecidableEq

/-- The `Garment` model fields consumed by the discovery ranking path. -/
structure Garment where
  embedding : Option (List ℚ) := none
  category : Option String := none
  brand : Option String := none
  story : Option Story := none
  style_attributes : Option StyleAttrs := none
  provenance : Option Pricing.Provenance := none
  created_at : ℤ := 0
deriving DecidableEq

/-- `Garment.get_story_text`: join the truthy `text`, `mood`, `occasion`
fields with spaces. -/
def get_story_text (st : Story) : String :=
  String.intercalate " "
    ((if st.text ≠ "" then [st.text] else []) ++
     (if st.mood ≠ "" then [st.mood] else []) ++
     (if st.occasion ≠ "" then [st.occasion] else []))

/-- `_calculate_text_similarity(query, garment)`: the heuristic fallback
score when a candidate has no embedding.  Each contribution guards on the
truthiness of the corresponding field as in the source. -/
def calculate_text_similarity (query : String) (g : Garment) : ℚ :=
  let ql := pyLower query
  let s1 : ℚ :=
    match g.category with
    | some c => if c ≠ "" ∧ strContains ql (pyLower c) then 0.3 else 0
    | none => 0
  let s2 : ℚ :=
    match g.brand with
    | some b => if b ≠ "" ∧ strContains ql (pyLower b) then 0.2 else 0
    | none => 0
  let s3 : ℚ :=
    match g.story with
    | some st =>
      min ((distinctOverlap (pyWords ql) (pyWords (pyLower (get_story_text st))) : ℚ) * 0.1) 0.4
    | none => 0
  let s4 : ℚ :=
    match g.style_attributes with
    | some sa => if sa.colors.any (fun c => strContains ql (pyLower c)) then 0.1 else 0
    | none => 0
  min (s1 + s2 + s3 + s4) 1.0

/-- `_generate_match_reasons(query, garment)`: templated reasons, at most 3,
with a generic fallback so the list is never empty. -/
def generate_match_reasons (query : String) (g : Garment) : List String :=
  let ql := pyLower query
  let r1 : List String :=
    match g.category with
    | some c => if c ≠ "" ∧ strContains ql (pyLower c) then ["Matches category: " ++ c] else []
    | none => []
  let r2 : List String :=
    match g.style_attributes with
    | some sa =>
      (match sa.style_tags.find? (fun t => strContains ql (pyLower t)) with
       | some t => [t ++ " style"]
       | none => []) ++
      (match sa.colors.find? (fun c => strContains ql (pyLower c)) with
       | some c => [c ++ " colorway"]
       | none => [])
    | none => []
  let r3 : List String :=
    match g.provenance with
    | some pv =>
      if pyLower pv.source ≠ "" ∧ strContains ql (pyLower pv.source) then
        [pyLower pv.source ++ " item"]
      else []
    | none => []
  let rs := r1 ++ r2 ++ r3
  (if rs = [] then ["Style compatibility"] else rs).take 3

/-- The per-candidate similarity of the query-embedding branch of
`discover_garments`: embedding cosine when the garment has a (truthy)
stored embedding, the text heuristic otherwise. -/
noncomputable def garment_similarity (query : String) (query_embedding : List ℚ)
    (g : Garment) : ℝ :=
  match g.embedding with
  | some e =>
    if e ≠ [] then StyleMatching.calculate_similarity query_embedding e
    else ((calculate_text_similarity query g : ℚ) : ℝ)
  | none => ((calculate_text_similarity query g : ℚ) : ℝ)

/-- One entry of the discovery response. -/
structure DiscoveryResult where
  garment : Garment
  similarity_score : ℝ
  match_reasons : List String

/-- The discovery response metadata returned by `discover_garments`. -/
structure DiscoveryResponse where
  results : List DiscoveryResult
  total : ℤ
  page : ℤ
  page_size : ℤ
  pages : ℤ

/-- The ranking core of `discover_garments`, modelled from after the
database fetch: `candidates` is the filtered active-garment pool (so the
count-query `total` equals `candidates.length`, and the `total == 0` early
return is the `candidates = []` case).  `query_embedding` stands for
`generate_text_embedding(q)`, produced exactly when `q` is truthy; the
`if query_embedding:` branch tests its truthiness.  Scored results are
filtered at threshold 0.1, sorted by similarity descending (no-query
case: by `created_at` descending with neutral score 0.5) — Python's stable
sort is modelled by the stable `insertionSort` — paginated with
`[start:end]`, and `pages = (total_scored + page_size - 1) // page_size`
(Python floor division). -/
noncomputable def discover_garments (q : Option String) (query_embedding : Option (List ℚ))
    (candidates : List Garment) (page page_size : ℤ) : DiscoveryResponse :=
  if candidates = [] then
    { results := [], total := 0, page := page, page_size := page_size, pages := 0 }
  else
    let qs := q.getD ""
    let qeTruthy : Bool := match query_embedding with | some e => decide (e ≠ []) | none => false
    let scored : List (Garment × ℝ × List String) :=
      if qeTruthy then
        let qe := query_embedding.getD []
        ((candidates.filter (fun g => decide ((1:ℝ)/10 ≤ garment_similarity qs qe g))).map
          (fun g => (g, garment_similarity qs qe g, generate_match_reasons qs g))).insertionSort
          (fun a b => b.2.1 ≤ a.2.1)
      else
        (candidates.map (fun g => (g, (0.5 : ℝ), ["Recently listed"]))).insertionSort
          (fun a b => b.1.created_at ≤ a.1.created_at)
    let total_scored : ℤ := scored.length
    let paginated := (scored.drop ((page - 1) * page_size).toNat).take page_size.toNat
    { results := paginated.map (fun t => ⟨t.1, roundReal3 t.2.1, t.2.2⟩)
      total := total_scored
      page := page
      page_size := page_size
      pages := (total_scored + page_size - 1).fdiv page_size }

end Discovery

/-! ## Color extractor: `services/color_extractor.py`

The K-Means clustering itself (scikit-learn, fixed seed) is the injected
numeric routine; its output is passed in as `centroids` (the integer-cast
cluster centres) and `labels` (one cluster index per remaining pixel).
Everything around it — background removal, the low-pixel fallback,
percentages, palette matching, sorting and the dominant flag — is modelled
from the source. -/

namespace ColorX

/-- An RGB pixel (`u8` components). -/
abbrev RGB := ℕ × ℕ × ℕ

/-- `is_background_color`: brightness below 20 or above 245, or saturation
below 0.05 with brightness above 200. -/
def is_background_color (rgb : RGB) : Bool :=
  let r : ℚ := rgb.1
  let g : ℚ := rgb.2.1
  let b : ℚ := rgb.2.2
  let brightness := (r + g + b) / 3
  if brightness < 20 then true
  else if 245 < brightness then true
  else
    let maxVal := max r (max g b)
    let minVal := min r (min g b)
    let saturation := if 0 < maxVal then (maxVal - minVal) / maxVal else 0
    decide (saturation < 0.05 ∧ 200 < brightness)

/-- The ~38-entry named fashion palette (`FASHION_COLOR_PALETTE`). -/
def FASHION_COLOR_PALETTE : List (String × RGB) :=
  [("Black", (0, 0, 0)), ("Charcoal", (54, 69, 79)), ("White", (255, 255, 255)),
   ("Off-White", (250, 249, 246)), ("Cream", (255, 253, 208)), ("Navy", (0, 0, 128)),
   ("Royal Blue", (65, 105, 225)), ("Sky Blue", (135, 206, 235)),
   ("Denim Blue", (21, 96, 189)), ("Light Blue", (173, 216, 230)),
   ("Red", (220, 20, 60)), ("Burgundy", (128, 0, 32)), ("Coral", (255, 127, 80)),
   ("Pink", (255, 192, 203)), ("Hot Pink", (255, 105, 180)), ("Blush", (222, 93, 131)),
   ("Forest Green", (34, 139, 34)), ("Olive", (128, 128, 0)), ("Sage", (138, 154, 140)),
   ("Mint", (189, 252, 201)), ("Emerald", (80, 200, 120)), ("Teal", (0, 128, 128)),
   ("Turquoise", (64, 224, 208)), ("Yellow", (255, 255, 0)), ("Mustard", (255, 173, 1)),
   ("Gold", (255, 215, 0)), ("Orange", (255, 165, 0)), ("Rust", (183, 65, 14)),
   ("Terracotta", (226, 114, 91)), ("Purple", (128, 0, 128)), ("Lavender", (230, 230, 250)),
   ("Mauve", (224, 176, 255)), ("Grey", (128, 128, 128)), ("Silver", (192, 192, 192)),
   ("Taupe", (188, 152, 126)), ("Beige", (245, 245, 220)), ("Tan", (210, 180, 140)),
   ("Brown", (139, 69, 19)), ("Chocolate", (123, 63, 0)), ("Camel", (193, 154, 107))]

/-- The square of `color_distance` (the CIE76-style weighted distance).
The source compares `sqrt` values; the square root is strictly monotone on
non-negative reals, so comparing the squares selects the same nearest
palette entry. -/
def color_distance_sq (c1 c2 : RGB) : ℚ :=
  let r1 : ℚ := c1.1
  let g1 : ℚ := c1.2.1
  let b1 : ℚ := c1.2.2
  let r2 : ℚ := c2.1
  let g2 : ℚ := c2.2.1
  let b2 : ℚ := c2.2.2
  let rMean := (r1 + r2) / 2
  (2 + rMean / 256) * (r1 - r2) ^ 2 + 4 * (g1 - g2) ^ 2 +
    (2 + (255 - rMean) / 256) * (b1 - b2) ^ 2

/-- `find_nearest_fashion_color`: scan the palette keeping the strictly
smallest distance; the initial `("Unknown", rgb)` with infinite distance is
the `none` accumulator. -/
def find_nearest_fashion_color (rgb : RGB) : String × RGB :=
  (FASHION_COLOR_PALETTE.foldl
    (fun acc entry =>
      match acc.2 with
      | none => (entry, some (color_distance_sq rgb entry.2))
      | some d =>
        if color_distance_sq rgb entry.2 < d then (entry, some (color_distance_sq rgb entry.2))
        else acc)
    ((("Unknown", rgb) : String × RGB), (none : Option ℚ))).1

/-- Hex digit of a value below 16 (`0`–`9`, `a`–`f`). -/
def hexDigit (n : ℕ) : Char := if n < 10 then Char.ofNat (48 + n) else Char.ofNat (87 + n)

/-- Two-digit lowercase hex of a byte, as `"{:02x}".format`. -/
def byteHex (n : ℕ) : String := String.mk [hexDigit (n / 16 % 16), hexDigit (n % 16)]

/-- `rgb_to_hex`. -/
def rgb_to_hex (c : RGB) : String := "#" ++ byteHex c.1 ++ byteHex c.2.1 ++ byteHex c.2.2

/-- An extracted color entry (`ExtractedColor` dataclass). -/
structure ExtractedColor where
  name : String
  hex : String
  rgb : RGB
  percentage : ℚ
  is_dominant : Bool
deriving DecidableEq

/-- The cluster count `max(2, min(n_colors, pixel_count // 20))` with the
default `n_colors = 5`. -/
def nClustersFor (pixelCount : ℕ) : ℕ := max 2 (min 5 (pixelCount / 20))

/-- Set `is_dominant` on the head of the percentage-sorted list
(`results[0].is_dominant = True` after the sort). -/
def markDominant : List ExtractedColor → List ExtractedColor
  | [] => []
  | c :: cs => { c with is_dominant := true } :: cs

/-- `ColorExtractor.extract_colors` on the pixel array of the resized
image.  `centroids`/`labels` are the K-Means output for the remaining
pixels (unused on the low-pixel fallback path, where K-Means never runs).
Percentages divide each cluster's pixel count by the total number of
clustered pixels (`total_pixels = sum(counts.values()) = len(labels)`),
rounded to 3 decimals; entries are sorted by percentage descending
(Python's stable sort, modelled by the stable `insertionSort`) and the
first is flagged dominant. -/
def extract_colors (pixels : List RGB) (centroids : List RGB) (labels : List ℕ)
    (remove_background : Bool) : List ExtractedColor :=
  let kept := if remove_background then pixels.filter (fun p => ¬ is_background_color p)
              else pixels
  if kept.length < 100 then
    [⟨"Unknown", "#808080", (128, 128, 128), 1.0, true⟩]
  else
    let total : ℚ := labels.length
    let results := centroids.enum.map (fun ic =>
      ({ name := (find_nearest_fashion_color ic.2).1
         hex := rgb_to_hex ic.2
         rgb := ic.2
         percentage := pyRound3 ((labels.count ic.1 : ℚ) / total)
         is_dominant := false } : ExtractedColor))
    markDominant (results.insertionSort (fun a b => b.percentage ≤ a.percentage))

end ColorX

/-! ## Concrete inputs used by counterexamples and witnesses -/

/-- The 512-dimensional first standard basis vector. -/
def unitVec512 : List ℚ := 1 :: List.replicate 511 0

/-- Its negation, also unit-norm. -/
def negUnitVec512 : List ℚ := -1 :: List.replicate 511 0

/-- The 150×150 pixel array of an all-black image. -/
def blackPixels : List ColorX.RGB := List.replicate 22500 (0, 0, 0)

/-- A 100-pixel array of a saturated dark-red foreground color. -/
def redPixels : List ColorX.RGB := List.replicate 100 (100, 0, 0)

/-- Five integer cluster centres for the `redPixels` witness. -/
def witCentroids : List ColorX.RGB :=
  [(100, 0, 0), (0, 0, 0), (10, 10, 10), (20, 20, 20), (30, 30, 30)]

/-- A cluster label per `redPixels` pixel, each below 5. -/
def witLabels : List ℕ := List.replicate 96 0 ++ [1, 2, 3, 4]

/-- A candidate garment with every optional field absent. -/
def plainGarment : Discovery.Garment := {}

/-! ## Helper lemmas -/

/-- The dot product against an all-zero vector vanishes. -/
theorem dot_replicate_zero_left (n : ℕ) (l : List ℚ) : dot (List.replicate n 0) l = 0 := by
  induction n generalizing l with
  | zero => rfl
  | succ k ih =>
    cases l with
    | nil => rfl
    | cons b bs => simp [List.replicate_succ, dot, ih]

/-- Marking the head dominant does not change the percentages. -/
theorem markDominant_map_percentage (l : List ColorX.ExtractedColor) :
    (ColorX.markDominant l).map ColorX.ExtractedColor.percentage =
      l.map ColorX.ExtractedColor.percentage := by
  cases l <;> rfl

/-- Sums of pointwise sums of naturals split. -/
theorem sum_map_add_nat (l : List ℕ) (f g : ℕ → ℕ) :
    (l.map (fun i => f i + g i)).sum = (l.map f).sum + (l.map g).sum := by
  induction l with
  | nil => rfl
  | cons a t ih => simp [ih]; omega

/-- The indicator of a value below `k` sums to 1 over `range k`. -/
theorem sum_range_indicator (k a : ℕ) (ha : a < k) :
    ((List.range k).map (fun i => if a = i then 1 else 0)).sum = 1 := by
  induction k with
  | zero => omega
  | succ n ih =>
    rw [List.range_succ, List.map_append, List.sum_append]
    by_cases h : a = n
    · subst h
      have hz : ((List.range a).map (fun i => if a = i then 1 else 0)).sum = 0 := by
        apply List.sum_eq_zero
        intro x hx
        obtain ⟨i, hi, rfl⟩ := List.mem_map.mp hx
        have hia : i < a := List.mem_range.mp hi
        rw [if_neg (by omega)]
      rw [hz, List.map_singleton, List.sum_singleton, if_pos rfl]
    · have ha' : a < n := by omega
      rw [ih ha', List.map_singleton, List.sum_singleton, if_neg h]

/-- The per-value counts of a list over `range k` sum to its length. -/
theorem sum_range_count (k : ℕ) (labels : List ℕ) (h : ∀ l ∈ labels, l < k) :
    ((List.range k).map (fun i => labels.count i)).sum = labels.length := by
  induction labels with
  | nil => simp
  | cons a ls ih =>
    have ha : a < k := h a (by simp)
    have hls : ∀ l ∈ ls, l < k := fun l hl => h l (by simp [hl])
    have hcount : ((List.range k).map (fun i => (a :: ls).count i)) =
        ((List.range k).map (fun i => ls.count i + if a = i then 1 else 0)) := by
      apply List.map_congr_left
      intro i _
      rw [List.count_cons]
      simp [beq_iff_eq]
    rw [hcount, sum_map_add_nat, ih hls, sum_range_indicator k a ha, List.length_cons]

/-- The cluster shares of a non-empty label list sum to exactly 1. -/
theorem sum_range_share (k : ℕ) (labels : List ℕ) (h : ∀ l ∈ labels, l < k)
    (hne : labels ≠ []) :
    ((List.range k).map (fun i => ((labels.count i : ℚ) / (labels.length : ℚ)))).sum = 1 := by
  have hlen : (0:ℚ) < (labels.length : ℚ) := by
    exact_mod_cast List.length_pos.mpr hne
  have hmul := List.sum_map_mul_right (List.range k)
    (fun i => ((labels.count i : ℚ))) ((labels.length : ℚ))⁻¹
  have hcast : ((List.range k).map (fun i => ((labels.count i : ℚ)))).sum =
      ((labels.length : ℕ) : ℚ) := by
    have hsrc := sum_range_count k labels h
    calc ((List.range k).map (fun i => ((labels.count i : ℚ)))).sum
        = (((List.range k).map (fun i => labels.count i)).map (Nat.cast : ℕ → ℚ)).sum := by
          rw [List.map_map]; rfl
      _ = (((List.range k).map (fun i => labels.count i)).sum : ℕ) := (Nat.cast_list_sum _).symm
      _ = ((labels.length : ℕ) : ℚ) := by rw [hsrc]
  have hfun : (fun i => ((labels.count i : ℚ) / (labels.length : ℚ))) =
      (fun i => ((labels.count i : ℚ) * ((labels.length : ℚ))⁻¹)) := by
    funext i
    rw [div_eq_mul_inv]
  rw [hfun, hmul, hcast]
  field_simp

/-- Floor division of a smaller non-negative integer is zero. -/
theorem fdiv_zero_of_nonneg_lt {a b : ℤ} (h0 : 0 ≤ a) (hab : a < b) : a.fdiv b = 0 := by
  rw [Int.fdiv_eq_ediv _ (le_of_lt (lt_of_le_of_lt h0 hab))]
  exact Int.ediv_eq_zero_of_lt h0 hab

/-- For unit-norm inputs the style-matching similarity is the dot product
clamped to [0,1]. -/
theorem style_matching_similarity_unit (a b : List ℚ) (ha : sumSq a = 1) (hb : sumSq b = 1) :
    StyleMatching.calculate_similarity a b = max 0 (min 1 ((dot a b : ℚ) : ℝ)) := by
  unfold StyleMatching.calculate_similarity
  rw [ha, hb]
  norm_num

/-! ## Claim theorems -/

/-- C1 counterexample: with grade "F" and brand tier 5 the routing action is
"sell" (reason `premium_brand`), not "recycle" — the brand-tier-5 rule
precedes the grade-F rule, so the claim "grade F always routes to recycle,
including tier 5" is false at this input. -/
theorem routing_gradeF_tier5_counterexample :
    get_routing_recommendation "F" (some 5) (some 100) =
      Except.ok ⟨"sell", "premium_brand", none, "high"⟩ ∧
    (get_routing_recommendation "F" (some 5) (some 100)).map RoutingRec.action ≠
      Except.ok "recycle" := by
  have h : get_routing_recommendation "F" (some 5) (some 100) =
      Except.ok ⟨"sell", "premium_brand", none, "high"⟩ := by with_unfolding_all rfl
  refine ⟨h, ?_⟩
  rw [h]
  intro hc
  simp [Except.map] at hc

/-- C1 (amended): grade "F" routes to "recycle" (reason `damaged`) for every
estimated price and every brand tier other than 5 (which routes to "sell")
and 1 (which routes to "donate"). -/
theorem routing_gradeF_recycles_unless_tier5_or_tier1
    (brand_tier : Option ℤ) (estimated_price : Option ℚ)
    (h5 : brand_tier ≠ some 5) (h1 : brand_tier ≠ some 1) :
    get_routing_recommendation "F" brand_tier estimated_price =
      Except.ok ⟨"recycle", "damaged",
        some "This piece might be past its wearing days — we can help you find textile recycling nearby.",
        "high"⟩ := by
  simp [get_routing_recommendation, h5, h1]

/-- C1 witness: the amended theorem applied at grade "F" with no brand tier
and no price. -/
theorem routing_gradeF_recycles_witness :
    (none : Option ℤ) ≠ some 5 ∧ (none : Option ℤ) ≠ some 1 ∧
    get_routing_recommendation "F" none none =
      Except.ok ⟨"recycle", "damaged",
        some "This piece might be past its wearing days — we can help you find textile recycling nearby.",
        "high"⟩ :=
  ⟨by simp, by simp,
    routing_gradeF_recycles_unless_tier5_or_tier1 none none (by simp) (by simp)⟩

/-- C5: calling the routing recommendation with grade "D" and no brand tier
does not reach the price/default rules — the source evaluates
`brand_tier <= 2` whenever `grade == "D"`, which raises a `TypeError` when
`brand_tier` is `None` (for any estimated price). -/
theorem routing_gradeD_no_tier_raises (estimated_price : Option ℚ) :
    get_routing_recommendation "D" none estimated_price =
      Except.error "TypeError: unsupported operand types for <=: NoneType and int" := by
  rfl

/-- C3: the category prompt "a photo of a t-shirt" is cleaned to
"photo of a t-shirt", not "t-shirt" — the prefix list of `_clean_label`
contains "a pair of " (which matches no prompt) instead of "a photo of ",
so the stock prefix leaks into the user-facing label. -/
theorem clean_label_photo_boilerplate_leaks :
    "a photo of a t-shirt" ∈ FashionCLIP.CATEGORY_PROMPTS ∧
    FashionCLIP.clean_label "a photo of a t-shirt" = "photo of a t-shirt" ∧
    FashionCLIP.clean_label "a photo of a t-shirt" ≠ "t-shirt" :=
  ⟨by decide, by decide, by decide⟩

/-- C6: for category "dress", condition "new", no brand, no provenance and
no original price the estimate is recommended 102.00 with range
[81.60, 122.40]. -/
theorem estimate_price_dress_new_values :
    (Pricing.estimate_price "dress" "new" none none none).recommended_price = 102 ∧
    (Pricing.estimate_price "dress" "new" none none none).range_min = 81.60 ∧
    (Pricing.estimate_price "dress" "new" none none none).range_max = 122.40 :=
  ⟨by with_unfolding_all rfl, by with_unfolding_all rfl, by with_unfolding_all rfl⟩

/-- C7: for every input, the price range is `0.8 ×` and `1.2 ×` the
recommended price, each rounded to 2 decimal places, the recommended price
is at least 5.00, and whenever the pre-floor rounded value is below 5.00
the recommended price is exactly 5.00. -/
theorem price_estimate_invariants (category condition : String) (brand : Option String)
    (provenance : Option Pricing.Provenance) (original_price : Option ℚ) :
    (Pricing.estimate_price category condition brand provenance original_price).range_min =
      quantizeHalfEven2 (0.8 *
        (Pricing.estimate_price category condition brand provenance original_price).recommended_price) ∧
    (Pricing.estimate_price category condition brand provenance original_price).range_max =
      quantizeHalfEven2 (1.2 *
        (Pricing.estimate_price category condition brand provenance original_price).recommended_price) ∧
    (5.00 : ℚ) ≤
      (Pricing.estimate_price category condition brand provenance original_price).recommended_price ∧
    (Pricing.adjusted_price category condition brand provenance original_price < 5.00 →
      (Pricing.estimate_price category condition brand provenance original_price).recommended_price
        = 5.00) := by
  refine ⟨by simp [Pricing.estimate_price, mul_comm], by simp [Pricing.estimate_price, mul_comm],
    le_max_right _ _, ?_⟩
  intro h
  exact max_eq_right (le_of_lt h)

/-- C7 witness: a one-dollar original price in fair condition falls below
the floor and is priced at exactly 5.00. -/
theorem price_estimate_invariants_witness :
    Pricing.adjusted_price "t-shirt" "fair" none none (some 1) < 5.00 ∧
    (Pricing.estimate_price "t-shirt" "fair" none none (some 1)).recommended_price = 5.00 :=
  ⟨by with_unfolding_all decide,
    (price_estimate_invariants "t-shirt" "fair" none none (some 1)).2.2.2
      (by with_unfolding_all decide)⟩

/-- C8: when the total summed confidence is zero the aggregation is empty,
and two images both voting "dress" at 0.9 and 0.8 (and no other labels)
aggregate to the single entry ("dress", 1.0). -/
theorem aggregate_predictions_zero_and_example :
    (∀ results : List (List (String × ℚ)),
        ((Analysis.collectVotes results).map Prod.snd).sum = 0 →
        Analysis.aggregate_predictions results = []) ∧
    Analysis.aggregate_predictions [[("dress", 0.9)], [("dress", 0.8)]] = [("dress", 1)] := by
  constructor
  · intro results h
    simp [Analysis.aggregate_predictions, h]
  · with_unfolding_all rfl

/-- C8 witness: the zero-total branch applied to the empty result list. -/
theorem aggregate_predictions_zero_witness :
    ((Analysis.collectVotes []).map Prod.snd).sum = 0 ∧
    Analysis.aggregate_predictions [] = [] :=
  ⟨rfl, aggregate_predictions_zero_and_example.1 [] rfl⟩

/-- C2 counterexample: the FashionCLIP `calculate_similarity` of two
concrete unit-norm 512-dimensional embeddings is −1 — a negative value
outside [0,1] — so the similarity is not the dot product clamped to [0,1]. -/
theorem fashion_clip_similarity_unclamped_counterexample :
    unitVec512.length = 512 ∧ negUnitVec512.length = 512 ∧
    sumSq unitVec512 = 1 ∧ sumSq negUnitVec512 = 1 ∧
    FashionCLIP.calculate_similarity unitVec512 negUnitVec512 = -1 ∧
    FashionCLIP.calculate_similarity unitVec512 negUnitVec512 < 0 := by
  have h1 : sumSq unitVec512 = 1 := by
    simp only [sumSq, unitVec512, dot, dot_replicate_zero_left]
    norm_num
  have h2 : sumSq negUnitVec512 = 1 := by
    simp only [sumSq, negUnitVec512, dot, dot_replicate_zero_left]
    norm_num
  have h3 : FashionCLIP.calculate_similarity unitVec512 negUnitVec512 = -1 := by
    simp only [FashionCLIP.calculate_similarity, unitVec512, negUnitVec512, dot,
      dot_replicate_zero_left]
    norm_num
  have hlen1 : unitVec512.length = 512 := by
    simp only [unitVec512, List.length_cons, List.length_replicate]
  have hlen2 : negUnitVec512.length = 512 := by
    simp only [negUnitVec512, List.length_cons, List.length_replicate]
  refine ⟨hlen1, hlen2, h1, h2, h3, ?_⟩
  rw [h3]
  norm_num

/-- C2 (amended): for unit-norm embeddings, FashionCLIP's
`calculate_similarity` returns the raw, unclamped dot product (equal to 1
at `(a, a)`), while StyleMatching's `calculate_similarity` returns the dot
product clamped to [0,1], which always lies in [0,1] and equals 1 at
`(a, a)`. -/
theorem similarity_unit_norm_amended (a b : List ℚ) (ha : sumSq a = 1) (hb : sumSq b = 1) :
    FashionCLIP.calculate_similarity a b = dot a b ∧
    FashionCLIP.calculate_similarity a a = 1 ∧
    StyleMatching.calculate_similarity a b = max 0 (min 1 ((dot a b : ℚ) : ℝ)) ∧
    0 ≤ StyleMatching.calculate_similarity a b ∧
    StyleMatching.calculate_similarity a b ≤ 1 ∧
    StyleMatching.calculate_similarity a a = 1 := by
  have hFCaa : FashionCLIP.calculate_similarity a a = 1 := by
    show dot a a = 1
    simpa [sumSq] using ha
  have hSM := style_matching_similarity_unit a b ha hb
  have hSMaa := style_matching_similarity_unit a a ha ha
  refine ⟨rfl, hFCaa, hSM, ?_, ?_, ?_⟩
  · rw [hSM]; exact le_max_left _ _
  · rw [hSM]; exact max_le (by norm_num) (min_le_left _ _)
  · rw [hSMaa]
    have hdaa : dot a a = 1 := by simpa [sumSq] using ha
    rw [hdaa]
    norm_num

/-- C2 witness: the amended theorem applied to the concrete unit vector. -/
theorem similarity_unit_norm_witness :
    sumSq unitVec512 = 1 ∧
    FashionCLIP.calculate_similarity unitVec512 unitVec512 = 1 ∧
    StyleMatching.calculate_similarity unitVec512 unitVec512 = 1 := by
  have h : sumSq unitVec512 = 1 := by
    simp only [sumSq, unitVec512, dot, dot_replicate_zero_left]
    norm_num
  exact ⟨h, (similarity_unit_norm_amended unitVec512 unitVec512 h h).2.1,
    (similarity_unit_norm_amended unitVec512 unitVec512 h h).2.2.2.2.2⟩

/-- C10: the sustainability score always lies in [50, 100]: it starts at 50,
adds only non-negative material bonuses capped at 80, then a non-negative
condition bonus, and is clamped at 100. -/
theorem sustainability_score_bounds (materials : List String) (condition : String) :
    50 ≤ Analysis.calculate_sustainability_score materials condition ∧
    Analysis.calculate_sustainability_score materials condition ≤ 100 := by
  have hcp : 0 ≤ Analysis.conditionPointsOf condition := by
    unfold Analysis.conditionPointsOf
    split_ifs <;> norm_num
  constructor
  · unfold Analysis.calculate_sustainability_score
    have hn : (0:ℤ) ≤ 10 * ((materials.filter (fun m =>
        Analysis.sustainable_materials.any (fun sm => strContains (pyLower m) sm))).length : ℤ) := by
      positivity
    have h50 : (50:ℤ) ≤ min (50 + 10 * ((materials.filter (fun m =>
        Analysis.sustainable_materials.any (fun sm => strContains (pyLower m) sm))).length : ℤ)) 80 :=
      le_min (by linarith) (by norm_num)
    exact le_min (by linarith) (by norm_num)
  · exact min_le_right _ _

/-- C9: when every candidate scores below the 0.1 similarity threshold, the
discovery response is normal and empty: no results, total 0, pages 0. -/
theorem discovery_below_threshold_empty (q : String) (qe : List ℚ)
    (candidates : List Discovery.Garment) (page page_size : ℤ)
    (hqe : qe ≠ []) (hps : 1 ≤ page_size)
    (hall : ∀ g ∈ candidates, Discovery.garment_similarity q qe g < 1/10) :
    (Discovery.discover_garments (some q) (some qe) candidates page page_size).results = [] ∧
    (Discovery.discover_garments (some q) (some qe) candidates page page_size).total = 0 ∧
    (Discovery.discover_garments (some q) (some qe) candidates page page_size).pages = 0 := by
  have hpages : (page_size - 1).fdiv page_size = 0 :=
    fdiv_zero_of_nonneg_lt (by omega) (by omega)
  unfold Discovery.discover_garments
  by_cases hc : candidates = []
  · simp [hc]
  · have hfilter :
        candidates.filter (fun g => decide ((10:ℝ)⁻¹ ≤ Discovery.garment_similarity q qe g)) = [] := by
      rw [List.filter_eq_nil_iff]
      intro g hg
      simpa [one_div] using not_le.mpr (hall g hg)
    simp [hc, hqe, hfilter, hpages, one_div]

/-- C9 witness: a single embedding-less candidate with no matching fields
scores 0 on the text fallback and the response is empty. -/
theorem discovery_below_threshold_witness :
    ([(1 : ℚ)] ≠ ([] : List ℚ)) ∧ ((1:ℤ) ≤ 20) ∧
    (∀ g ∈ [plainGarment], Discovery.garment_similarity "vintage" [1] g < 1/10) ∧
    (Discovery.discover_garments (some "vintage") (some [1]) [plainGarment] 1 20).results = [] ∧
    (Discovery.discover_garments (some "vintage") (some [1]) [plainGarment] 1 20).total = 0 ∧
    (Discovery.discover_garments (some "vintage") (some [1]) [plainGarment] 1 20).pages = 0 := by
  have htext : Discovery.calculate_text_similarity "vintage" plainGarment = 0 := by
    with_unfolding_all rfl
  have hsim : Discovery.garment_similarity "vintage" [1] plainGarment < 1/10 := by
    have hval : Discovery.garment_similarity "vintage" [1] plainGarment =
        ((Discovery.calculate_text_similarity "vintage" plainGarment : ℚ) : ℝ) := rfl
    rw [hval, htext]
    norm_num
  have hall : ∀ g ∈ [plainGarment], Discovery.garment_similarity "vintage" [1] g < 1/10 := by
    intro g hg
    rw [List.mem_singleton.mp hg]
    exact hsim
  obtain ⟨h1, h2, h3⟩ := discovery_below_threshold_empty "vintage" [1] [plainGarment] 1 20
    (by simp) (by norm_num) hall
  exact ⟨by simp, by norm_num, hall, h1, h2, h3⟩

/-- C4 counterexample: an all-black image loses every pixel to background
removal, so the extractor returns the single "Unknown" placeholder whose
percentage is exactly 1.0 — the percentage sum is 1.0, not strictly below
1.0, even though background pixels were removed. -/
theorem extract_colors_fallback_counterexample :
    blackPixels.filter (fun p => ¬ ColorX.is_background_color p) = [] ∧
    ColorX.extract_colors blackPixels [] [] true =
      [⟨"Unknown", "#808080", (128, 128, 128), 1, true⟩] ∧
    ((ColorX.extract_colors blackPixels [] [] true).map
      ColorX.ExtractedColor.percentage).sum = 1 := by
  have hbg : ColorX.is_background_color (0, 0, 0) = true := by with_unfolding_all rfl
  have hf : blackPixels.filter (fun p => ¬ ColorX.is_background_color p) = [] := by
    unfold blackPixels
    rw [List.filter_replicate, if_neg (by rw [hbg]; decide)]
  have hx : ColorX.extract_colors blackPixels [] [] true =
      [⟨"Unknown", "#808080", (128, 128, 128), 1, true⟩] := by
    unfold ColorX.extract_colors
    rw [if_pos rfl, hf]
    with_unfolding_all rfl
  exact ⟨hf, hx, by rw [hx]; simp⟩

/-- C4 (amended): on the clustering path (at least 100 foreground pixels,
labels produced by K-Means over them), the extractor returns a non-empty
sequence with exactly one dominant entry, which has the maximum percentage;
the percentages are the clusters' shares of the *foreground* pixels rounded
to 3 decimals, and the unrounded shares sum to exactly 1.0 (so the sum is
not strictly below 1.0 when background was removed, and can exceed 1.0
only by rounding). -/
theorem extract_colors_amended (pixels centroids : List ColorX.RGB) (labels : List ℕ)
    (hlen : labels.length = (pixels.filter (fun p => ¬ ColorX.is_background_color p)).length)
    (hk : centroids.length =
      ColorX.nClustersFor (pixels.filter (fun p => ¬ ColorX.is_background_color p)).length)
    (hmem : ∀ l ∈ labels, l < centroids.length)
    (hbig : 100 ≤ (pixels.filter (fun p => ¬ ColorX.is_background_color p)).length) :
    ColorX.extract_colors pixels centroids labels true ≠ [] ∧
    ((ColorX.extract_colors pixels centroids labels true).filter
      (fun c => c.is_dominant)).length = 1 ∧
    (∀ c ∈ ColorX.extract_colors pixels centroids labels true,
      ∀ d ∈ ColorX.extract_colors pixels centroids labels true,
        d.is_dominant = true → c.percentage ≤ d.percentage) ∧
    ((ColorX.extract_colors pixels centroids labels true).map
        ColorX.ExtractedColor.percentage).Perm
      ((List.range centroids.length).map
        (fun i => pyRound3 ((labels.count i : ℚ) / (labels.length : ℚ)))) ∧
    ((List.range centroids.length).map
      (fun i => ((labels.count i : ℚ) / (labels.length : ℚ)))).sum = 1 := by
  classical
  set r : ColorX.ExtractedColor → ColorX.ExtractedColor → Prop :=
    fun a b => b.percentage ≤ a.percentage with hr
  haveI hTot : IsTotal ColorX.ExtractedColor r := ⟨fun a b => le_total b.percentage a.percentage⟩
  haveI hTrans : IsTrans ColorX.ExtractedColor r := ⟨fun _ _ _ hab hbc => le_trans hbc hab⟩
  set f : ℕ × ColorX.RGB → ColorX.ExtractedColor := fun ic =>
      ({ name := (ColorX.find_nearest_fashion_color ic.2).1
         hex := ColorX.rgb_to_hex ic.2
         rgb := ic.2
         percentage := pyRound3 ((labels.count ic.1 : ℚ) / (labels.length : ℚ))
         is_dominant := false } : ColorX.ExtractedColor) with hfdef
  have hA : ColorX.extract_colors pixels centroids labels true =
      ColorX.markDominant ((centroids.enum.map f).insertionSort r) := by
    unfold ColorX.extract_colors
    rw [if_pos rfl, if_neg (by omega)]
  have hsort := List.sorted_insertionSort r (centroids.enum.map f)
  have hperm : ((centroids.enum.map f).insertionSort r).Perm (centroids.enum.map f) :=
    List.perm_insertionSort r _
  have hlenEnum : (centroids.enum.map f).length = centroids.length := by
    rw [List.length_map, List.enum_length]
  have hk2 : 2 ≤ centroids.length := by
    rw [hk]
    exact le_max_left 2 _
  have hlenSort : ((centroids.enum.map f).insertionSort r).length = centroids.length := by
    rw [hperm.length_eq, hlenEnum]
  have hnd : ∀ c ∈ (centroids.enum.map f).insertionSort r, c.is_dominant = false := by
    intro c hc
    obtain ⟨ic, _, rfl⟩ := List.mem_map.mp (hperm.mem_iff.mp hc)
    rfl
  obtain ⟨c0, cs, hcons⟩ : ∃ c0 cs, (centroids.enum.map f).insertionSort r = c0 :: cs := by
    cases hl : (centroids.enum.map f).insertionSort r with
    | nil =>
      rw [hl, List.length_nil] at hlenSort
      omega
    | cons c0 cs => exact ⟨c0, cs, rfl⟩
  rw [hcons] at hA hsort hnd hperm
  have hcsnd : ∀ c ∈ cs, c.is_dominant = false := fun c hc => hnd c (List.mem_cons_of_mem _ hc)
  have hAexp : ColorX.extract_colors pixels centroids labels true =
      { c0 with is_dominant := true } :: cs := hA
  refine ⟨by rw [hAexp]; exact List.cons_ne_nil _ _, ?_, ?_, ?_, ?_⟩
  · rw [hAexp]
    rw [List.filter_cons_of_pos (by rfl)]
    rw [List.filter_eq_nil_iff.mpr (fun c hc => by simp [hcsnd c hc])]
    rfl
  · rw [hAexp]
    intro c hc d hd hdom
    have hd' : d = { c0 with is_dominant := true } := by
      rcases List.mem_cons.mp hd with h | h
      · exact h
      · exact absurd hdom (by simp [hcsnd d h])
    subst hd'
    rcases List.mem_cons.mp hc with h | h
    · subst h; exact le_refl _
    · exact List.rel_of_sorted_cons hsort c h
  · rw [hAexp]
    have h1 : ({ c0 with is_dominant := true } :: cs).map ColorX.ExtractedColor.percentage =
        (c0 :: cs).map ColorX.ExtractedColor.percentage := markDominant_map_percentage (c0 :: cs)
    rw [h1]
    have h2 := hperm.map ColorX.ExtractedColor.percentage
    refine h2.trans ?_
    rw [List.map_map]
    have h3 : (ColorX.ExtractedColor.percentage ∘ f) =
        (fun i => pyRound3 ((labels.count i : ℚ) / (labels.length : ℚ))) ∘ Prod.fst := rfl
    rw [h3, ← List.map_map, List.enum_map_fst]
  · refine sum_range_share centroids.length labels hmem ?_
    intro hnil
    rw [hnil, List.length_nil] at hlen
    omega

/-- C4 witness: 100 foreground pixels with an explicit 5-cluster labelling
satisfy the amended theorem's hypotheses, and the extractor output is
non-empty. -/
theorem extract_colors_amended_witness :
    witLabels.length = (redPixels.filter (fun p => ¬ ColorX.is_background_color p)).length ∧
    witCentroids.length =
      ColorX.nClustersFor (redPixels.filter (fun p => ¬ ColorX.is_background_color p)).length ∧
    (∀ l ∈ witLabels, l < witCentroids.length) ∧
    100 ≤ (redPixels.filter (fun p => ¬ ColorX.is_background_color p)).length ∧
    ColorX.extract_colors redPixels witCentroids witLabels true ≠ [] := by
  have hred : ColorX.is_background_color (100, 0, 0) = false := by with_unfolding_all rfl
  have hfilt : redPixels.filter (fun p => ¬ ColorX.is_background_color p) =
      List.replicate 100 (100, 0, 0) := by
    unfold redPixels
    rw [List.filter_replicate, if_pos (by rw [hred]; decide)]
  have p1 : witLabels.length =
      (redPixels.filter (fun p => ¬ ColorX.is_background_color p)).length := by
    rw [hfilt, List.length_replicate]
    decide
  have p2 : witCentroids.length =
      ColorX.nClustersFor (redPixels.filter (fun p => ¬ ColorX.is_background_color p)).length := by
    rw [hfilt, List.length_replicate]
    decide
  have p3 : ∀ l ∈ witLabels, l < witCentroids.length := by decide
  have p4 : 100 ≤ (redPixels.filter (fun p => ¬ ColorX.is_background_color p)).length := by
    rw [hfilt, List.length_replicate]
  exact ⟨p1, p2, p3, p4, (extract_colors_amended redPixels witCentroids witLabels p1 p2 p3 p4).1⟩
